import Mathlib

/-!
Verification of the initialization-coordination and readiness-gating core of
`entry/main.py` (Kokoro TTS service).  The module-level mutable globals
`MODELS_LOADED`, `initialized`, `initialization_error` are embedded as a
`ServerState` record; the endpoint handlers (`health_check`, `readiness_check`,
`root`), the request-admission middleware (`check_initialization`), the
background worker (`init_models_thread`) and the startup hook
(`startup_event`) are embedded as pure functions of that state.  Python
strings are Lean `String`s; Python string truthiness and `bool()` rendering
are modelled explicitly.
-/

namespace KokoroTTS

/-- Truthiness of the Python value held in `initialization_error`: `None` and
the empty string are falsy, every other string is truthy. -/
def pyTruthyOpt : Option String → Bool
  | none => false
  | some s => !(s == "")

/-- Python `str.lower()`: lower-case every character. -/
def pyLower (s : String) : String := String.mk (s.data.map Char.toLower)

/-- Python `bool(x)` rendered by an f-string: `"True"` or `"False"`. -/
def pyBoolRepr (b : Bool) : String := if b then "True" else "False"

/-- Auxiliary: does `needle` occur as a contiguous run inside `hay`?
Models the Python substring test `needle in hay`. -/
def containsSub (needle : List Char) : List Char → Bool
  | [] => needle.isPrefixOf []
  | c :: cs => needle.isPrefixOf (c :: cs) || containsSub needle cs

/-- Python `needle in hay` on strings. -/
def strContains (hay needle : String) : Bool := containsSub needle.data hay.data

/-- The spec's lifecycle phases.  The module of `entry/main.py` starts with
`initialized = False` and `initialization_error = None` and never writes a
distinct marker for `Loading`, so the code does not distinguish
`Uninitialized` from `Loading`; both report as loading/initializing. -/
inductive Phase
  | Uninitialized
  | Loading
  | Ready
  | Failed
deriving DecidableEq

/-- The module-level globals of `entry/main.py` that form the shared
initialization state. -/
structure ServerState where
  MODELS_LOADED : Bool
  initialized : Bool
  initialization_error : Option String
deriving DecidableEq

/-- The globals as initialized at module load:
`MODELS_LOADED = False`, `initialized = False`, `initialization_error = None`. -/
def initialState : ServerState :=
  { MODELS_LOADED := false, initialized := false, initialization_error := none }

/-- A state in which the load has completed successfully. -/
def readyState : ServerState :=
  { MODELS_LOADED := true, initialized := true, initialization_error := none }

/-- The phase the code's branch conditions realize: a truthy
`initialization_error` means `Failed`, otherwise `initialized` means `Ready`,
otherwise the load is still pending (`Loading`). -/
def phase (st : ServerState) : Phase :=
  if pyTruthyOpt st.initialization_error then Phase.Failed
  else if st.initialized then Phase.Ready
  else Phase.Loading

/-- Environment facts read by the worker before loading:
`os.environ.get('CONTAINER_ENV', '')`, `os.environ.get('K_SERVICE', '')`,
and `os.path.exists(os.path.join(os.getcwd(), 'models', 'Kokoro-82M'))`. -/
structure EnvContext where
  CONTAINER_ENV : String
  K_SERVICE : String
  modelsDirExists : Bool
deriving DecidableEq

/-- The `force_online` computation of `init_models_thread`
(src/entry/main.py lines 62-68): starts at `False`; if
`CONTAINER_ENV.lower() == 'true'` or `K_SERVICE.lower() != ''` it becomes
the negation of the local model-directory existence test. -/
def computeForceOnline (env : EnvContext) : Bool :=
  if pyLower env.CONTAINER_ENV = "true" ∨ pyLower env.K_SERVICE ≠ "" then
    !env.modelsDirExists
  else
    false

/-- The rule as the spec words it: forceOnline iff (container indicator equals
"true" case-insensitively OR the service-name variable is non-empty) AND the
local model-artifact directory does not exist. -/
def forceOnlineSpec (env : EnvContext) : Bool :=
  (decide (pyLower env.CONTAINER_ENV = "true" ∨ env.K_SERVICE ≠ "")) && !env.modelsDirExists

/-- Body of the `/health` response. -/
inductive HealthBody
  | error (err : String)
  | initializing
  | healthy (voices : List String)
deriving DecidableEq

/-- `GET /health` (src/entry/main.py lines 102-109): always HTTP 200; body
chosen by truthiness of `initialization_error`, then by `initialized`. -/
def health_check (st : ServerState) (voices : List String) : Nat × HealthBody :=
  if pyTruthyOpt st.initialization_error then
    (200, HealthBody.error (st.initialization_error.getD ""))
  else if st.initialized then
    (200, HealthBody.healthy voices)
  else
    (200, HealthBody.initializing)

/-- Body of the `/ready` response. -/
inductive ReadyBody
  | error (err : String)
  | loading (message : String)
  | ready (message : String)
deriving DecidableEq

/-- `GET /ready` (src/entry/main.py lines 111-120): 503 with the stored error
when `initialization_error` is truthy; 503 "still loading" when not yet
`initialized`; otherwise 200 ready. -/
def readiness_check (st : ServerState) : Nat × ReadyBody :=
  if pyTruthyOpt st.initialization_error then
    (503, ReadyBody.error (st.initialization_error.getD ""))
  else if st.initialized then
    (200, ReadyBody.ready "Models loaded and ready")
  else
    (503, ReadyBody.loading "Models are still loading")

/-- The readiness behaviour as the spec words it, phrased over `phase`. -/
def readinessSpec (st : ServerState) : Nat × ReadyBody :=
  match phase st with
  | Phase.Ready => (200, ReadyBody.ready "Models loaded and ready")
  | Phase.Failed => (503, ReadyBody.error (st.initialization_error.getD ""))
  | _ => (503, ReadyBody.loading "Models are still loading")

/-- `GET /` (src/entry/main.py lines 129-131): static informational body. -/
def root : Nat × String :=
  (200, "Kokoro TTS API is running. Visit /docs for API documentation.")

/-- Outcome of the external loader call plus the post-load registry reads:
either `initialize_models` (or one of the `get_*` accessors) raises with a
message, or it returns and the three collections are observed. -/
inductive LoaderOutcome
  | success (models pipelines voices : List String)
  | failure (msg : String)
deriving DecidableEq

/-- The message of the `RuntimeError` raised by the worker's validation step
(src/entry/main.py line 81): an f-string rendering Python `bool()` of each
collection, hence capitalized `True`/`False`. -/
def validationMessage (m p v : Bool) : String :=
  "Critical components missing after initialization: models=" ++ pyBoolRepr m ++
    ", pipelines=" ++ pyBoolRepr p ++ ", voices=" ++ pyBoolRepr v

/-- The background worker `init_models_thread` (src/entry/main.py lines
57-94) as a state transformer, given the loader outcome.  On an exception
(including the validation `RuntimeError`) the except-block stores the
message and clears both flags; on success it sets both flags and clears the
error. -/
def init_models_thread (outcome : LoaderOutcome) (st : ServerState) : ServerState :=
  match outcome with
  | LoaderOutcome.failure msg =>
      { st with initialization_error := some msg, MODELS_LOADED := false,
                initialized := false }
  | LoaderOutcome.success models pipelines voices =>
      if models.isEmpty || pipelines.isEmpty || voices.isEmpty then
        { st with
            initialization_error :=
              some (validationMessage (!models.isEmpty) (!pipelines.isEmpty)
                (!voices.isEmpty)),
            MODELS_LOADED := false, initialized := false }
      else
        { st with MODELS_LOADED := true, initialized := true,
                  initialization_error := none }

/-- The sequence of shared-state snapshots produced by one worker run started
from the module's initial state, one entry per global assignment, in source
order.  Success path: `MODELS_LOADED = True`, `initialized = True`,
`initialization_error = None`.  Failure paths (loader exception or validation
error): `initialization_error = str(e)`, `MODELS_LOADED = False`,
`initialized = False`. -/
def workerTrace (outcome : LoaderOutcome) : List ServerState :=
  match outcome with
  | LoaderOutcome.failure msg =>
      [initialState,
       { initialState with initialization_error := some msg },
       { initialState with initialization_error := some msg, MODELS_LOADED := false },
       { initialState with initialization_error := some msg, MODELS_LOADED := false,
                           initialized := false }]
  | LoaderOutcome.success models pipelines voices =>
      if models.isEmpty || pipelines.isEmpty || voices.isEmpty then
        let msg := validationMessage (!models.isEmpty) (!pipelines.isEmpty)
          (!voices.isEmpty)
        [initialState,
         { initialState with initialization_error := some msg },
         { initialState with initialization_error := some msg, MODELS_LOADED := false },
         { initialState with initialization_error := some msg, MODELS_LOADED := false,
                             initialized := false }]
      else
        [initialState,
         { initialState with MODELS_LOADED := true },
         { initialState with MODELS_LOADED := true, initialized := true },
         { initialState with MODELS_LOADED := true, initialized := true,
                             initialization_error := none }]

/-- Ordering of phases along the intended lifecycle; the two terminal phases
share the top rank. -/
def phaseRank : Phase → Nat
  | Phase.Uninitialized => 0
  | Phase.Loading => 1
  | Phase.Ready => 2
  | Phase.Failed => 2

/-- Is a phase terminal? -/
def isTerminalPhase : Phase → Bool
  | Phase.Ready => true
  | Phase.Failed => true
  | _ => false

/-- Number of transitions into a terminal phase along a state trace. -/
def terminalWrites : List ServerState → Nat
  | [] => 0
  | [_] => 0
  | a :: b :: rest =>
      (if isTerminalPhase (phase a) = false ∧ isTerminalPhase (phase b) = true
       then 1 else 0) + terminalWrites (b :: rest)

/-- The startup hook `startup_event` (src/entry/main.py lines 48-99): it
defines `init_models_thread`, then unconditionally constructs a
`threading.Thread` and calls `start()` on it — there is no check of
`initialized`, `initialization_error` or any phase.  The hook itself does not
mutate the globals; the pair returns the (unchanged) state together with the
number of background workers spawned by this one call. -/
def startup_event (st : ServerState) : ServerState × Nat := (st, 1)

/-- Total number of workers spawned by `n` successive calls of the startup
hook in state `st`. -/
def totalWorkersSpawned (st : ServerState) : Nat → Nat
  | 0 => 0
  | n + 1 => totalWorkersSpawned st n + (startup_event st).2

/-- The distinct pieces of work performed by one run of
`init_models_thread`, in source order. -/
inductive WorkerStep
  | detectEnvironment
  | loadModels
  | validateComponents
  | writeTerminalState
deriving DecidableEq

/-- Which steps of `init_models_thread` execute while `model_init_lock` is
held.  In the source the `with model_init_lock:` block opens at line 60,
before the environment detection, and closes only after the terminal state
assignments — every step of the worker runs under the lock. -/
def workerLockProfile : List (WorkerStep × Bool) :=
  [(WorkerStep.detectEnvironment, true),
   (WorkerStep.loadModels, true),
   (WorkerStep.validateComponents, true),
   (WorkerStep.writeTerminalState, true)]

/-- Is a step the terminal state write? -/
def stepIsTerminalWrite : WorkerStep → Bool
  | WorkerStep.writeTerminalState => true
  | _ => false

/-- The lock discipline the spec demands: a step holds the lock only if it is
the terminal state write. -/
def lockOnlyAtTerminalWrite (profile : List (WorkerStep × Bool)) : Bool :=
  profile.all (fun p => !p.2 || stepIsTerminalWrite p.1)

/-- Result of the admission middleware for one request. -/
inductive GateResult
  | allow
  | reject (statusCode : Nat) (detail : String)
deriving DecidableEq

/-- The middleware's exempt list (src/entry/main.py line 136). -/
def exemptPaths : List String :=
  ["/health", "/ready", "/docs", "/openapi.json", "/redoc"]

/-- The fixed guidance text substituted by the gate when the stored error
message contains `"weights_only"` (src/entry/main.py line 148). -/
def weightsOnlyGuidance : String :=
  "PyTorch 2.6 compatibility issue with model loading. The model was created with an older PyTorch version. Please restart the application to retry with fallback loading options."

/-- The gate's error formatting (src/entry/main.py lines 145-152): first the
`weights_only` substitution, then truncation of anything longer than 200
characters to its first 197 characters plus `"..."`. -/
def formatErrorMessage (raw : String) : String :=
  let msg := if strContains raw "weights_only" then weightsOnlyGuidance else raw
  if msg.length > 200 then msg.take 197 ++ "..." else msg

/-- The admission middleware `check_initialization` (src/entry/main.py lines
133-161) as a function of the shared state, the live registry reads
(`get_models()`, `get_voices()`) and the request path. -/
def check_initialization (st : ServerState) (models voices : List String)
    (path : String) : GateResult :=
  if exemptPaths.contains path then
    GateResult.allow
  else if !st.initialized then
    if pyTruthyOpt st.initialization_error then
      GateResult.reject 503
        ("Service unavailable: " ++
          formatErrorMessage (st.initialization_error.getD ""))
    else
      GateResult.reject 503 "Service is still initializing"
  else if models.length = 0 ∨ voices.length = 0 then
    GateResult.reject 503 "Model initialization incomplete - service not ready"
  else
    GateResult.allow

/-- A 201-character message with no `weights_only` marker, used as a witness
input for the truncation law. -/
def longErr : String := String.mk (List.replicate 201 'a')

/-- A 212-character message containing `weights_only`, used as a witness
input for the probe endpoints. -/
def longWeightsErr : String :=
  String.mk (List.replicate 100 'x') ++ "weights_only" ++
    String.mk (List.replicate 100 'y')

theorem pyLower_eq_empty_iff (s : String) : pyLower s = "" ↔ s = "" := by
  cases s with
  | mk data =>
    cases data with
    | nil => simp [pyLower]
    | cons c cs =>
      simp only [pyLower, List.map]
      constructor
      · intro h
        exact absurd (congrArg String.data h) (by simp)
      · intro h
        exact absurd (congrArg String.data h) (by simp)

/-- Claim C7: the environment detector computes forceOnline = true iff
(the container-indicator variable equals "true" case-insensitively OR the
service-name variable is non-empty) AND the local model-artifact directory
does not exist; in every other combination it computes false. -/
theorem C7_forceOnline_rule (env : EnvContext) :
    computeForceOnline env = forceOnlineSpec env := by
  have hks : pyLower env.K_SERVICE ≠ "" ↔ env.K_SERVICE ≠ "" :=
    not_congr (pyLower_eq_empty_iff env.K_SERVICE)
  have hemp : pyLower "" = "" := rfl
  by_cases hc : pyLower env.CONTAINER_ENV = "true" <;>
    by_cases hk : env.K_SERVICE = "" <;>
      simp [computeForceOnline, forceOnlineSpec, hc, hk, hks, hemp]

/-- Claim C8: `/ready` answers HTTP 200 iff the phase is `Ready` at the
instant of the call, with the ready body; in `Failed` it answers 503 with
the stored error, and in any non-terminal phase 503 with the loading body —
i.e. `readiness_check` agrees with the spec-side `readinessSpec` everywhere. -/
theorem C8_readiness_exact (st : ServerState) :
    readiness_check st = readinessSpec st ∧
      ((readiness_check st).1 = 200 ↔ phase st = Phase.Ready) := by
  cases st with
  | mk ml init err =>
    cases herr : pyTruthyOpt err <;>
      cases init <;>
        simp [readiness_check, readinessSpec, phase, herr]

/-- Claim C1 counterexample: in a state whose phase is already `Ready`, a
further call of the startup hook is not a no-op — it spawns one more
background worker, and three calls spawn three workers, contradicting the
claimed idempotence. -/
theorem C1_counterexample :
    phase readyState = Phase.Ready ∧
    (startup_event readyState).2 = 1 ∧
    totalWorkersSpawned readyState 3 = 3 := by decide

/-- Claim C1 amended: the startup hook performs no phase check and spawns
exactly one background worker on every call, in every state, so N calls
yield N worker spawns (the framework invokes the hook once per process). -/
theorem C1_amended (st : ServerState) (n : Nat) :
    totalWorkersSpawned st n = n := by
  induction n with
  | zero => rfl
  | succ k ih => simp [totalWorkersSpawned, ih, startup_event]

/-- Claim C2: the worker of the source holds `model_init_lock` during every
step — environment detection, the model load and the validation included —
so the lock discipline demanded by the claim (lock only at the terminal
write) is violated by the code. -/
theorem C2_lock_profile :
    workerLockProfile.all (fun p => p.2) = true ∧
    lockOnlyAtTerminalWrite workerLockProfile = false := by decide

/-- Claim C4 counterexample: with non-empty models and pipelines but no
voices, the worker stores the validation message with Python-rendered
capitalized booleans, not the lowercase `true`/`false` the claim states. -/
theorem C4_counterexample :
    (init_models_thread (LoaderOutcome.success ["m"] ["p"] [])
        initialState).initialization_error =
      some "Critical components missing after initialization: models=True, pipelines=True, voices=False" ∧
    (init_models_thread (LoaderOutcome.success ["m"] ["p"] [])
        initialState).initialization_error ≠
      some "Critical components missing after initialization: models=true, pipelines=true, voices=false" := by
  decide

/-- Claim C4 amended: if the loader returns successfully but the voices
collection is empty while models and pipelines are non-empty, the worker
ends in `Failed` with errorMessage exactly
`"Critical components missing after initialization: models=True, pipelines=True, voices=False"`
(Python `bool()` rendering, capitalized). -/
theorem C4_amended (m p v : List String) (hm : m.isEmpty = false)
    (hp : p.isEmpty = false) (hv : v.isEmpty = true) :
    init_models_thread (LoaderOutcome.success m p v) initialState =
      { MODELS_LOADED := false, initialized := false,
        initialization_error :=
          some "Critical components missing after initialization: models=True, pipelines=True, voices=False" } ∧
    phase (init_models_thread (LoaderOutcome.success m p v) initialState) =
      Phase.Failed := by
  have hcond : (m.isEmpty || p.isEmpty || v.isEmpty) = true := by
    simp [hm, hp, hv]
  have hstate : init_models_thread (LoaderOutcome.success m p v) initialState =
      { MODELS_LOADED := false, initialized := false,
        initialization_error :=
          some "Critical components missing after initialization: models=True, pipelines=True, voices=False" } := by
    simp only [init_models_thread, hcond, if_true, hm, hp, hv]
    decide
  exact ⟨hstate, by rw [hstate]; decide⟩

/-- Claim C4 amended, witness at models = ["m"], pipelines = ["p"],
voices = []. -/
theorem C4_amended_witness :
    init_models_thread (LoaderOutcome.success ["m"] ["p"] []) initialState =
      { MODELS_LOADED := false, initialized := false,
        initialization_error :=
          some "Critical components missing after initialization: models=True, pipelines=True, voices=False" } ∧
    phase (init_models_thread (LoaderOutcome.success ["m"] ["p"] [])
        initialState) = Phase.Failed :=
  C4_amended ["m"] ["p"] [] rfl rfl rfl

/-- Claim C5 counterexample: the root path is not in the middleware's exempt
list, and while the state is still loading a request to `/` is rejected with
503 instead of being allowed through to the 200 static response. -/
theorem C5_counterexample :
    exemptPaths.contains "/" = false ∧
    check_initialization initialState ["m"] ["v"] "/" =
      GateResult.reject 503 "Service is still initializing" := by decide

/-- Claim C5 amended: `GET /` is gated like any other non-exempt path: while
the state is not initialized (and no error is stored) the gate rejects it
with 503 "Service is still initializing"; only once initialized with
non-empty models and voices is it allowed through, and then the root handler
answers 200 with the static message. -/
theorem C5_amended :
    exemptPaths.contains "/" = false ∧
    (∀ st : ServerState, ∀ models voices : List String,
      st.initialized = false → st.initialization_error = none →
      check_initialization st models voices "/" =
        GateResult.reject 503 "Service is still initializing") ∧
    (∀ st : ServerState, ∀ models voices : List String,
      st.initialized = true → models.length ≠ 0 → voices.length ≠ 0 →
      check_initialization st models voices "/" = GateResult.allow) ∧
    root = (200, "Kokoro TTS API is running. Visit /docs for API documentation.") := by
  refine ⟨by decide, ?_, ?_, rfl⟩
  · intro st models voices hinit herr
    simp [check_initialization, hinit, herr, pyTruthyOpt]
    decide
  · intro st models voices hinit hm hv
    simp [check_initialization, hinit, hm, hv]

/-- Claim C5 amended, witness: concrete loading-phase rejection and
concrete ready-phase admission of `/`. -/
theorem C5_amended_witness :
    check_initialization initialState [] [] "/" =
      GateResult.reject 503 "Service is still initializing" ∧
    check_initialization readyState ["m"] ["v"] "/" = GateResult.allow :=
  ⟨C5_amended.2.1 initialState [] [] rfl rfl,
   C5_amended.2.2.1 readyState ["m"] ["v"] rfl (by decide) (by decide)⟩

/-- Claim C3: for a stored errorMessage longer than 200 characters that does
not contain `"weights_only"`, the gate rejects a non-exempt request with 503
carrying `"Service unavailable: "` plus a formatted message of length
exactly 200 that is the first 197 characters of the original followed by
`"..."`. -/
theorem C3_truncation (st : ServerState) (models voices : List String)
    (path raw : String)
    (hpath : exemptPaths.contains path = false)
    (hinit : st.initialized = false)
    (herr : st.initialization_error = some raw)
    (hlen : raw.length > 200)
    (hsub : strContains raw "weights_only" = false) :
    check_initialization st models voices path =
      GateResult.reject 503 ("Service unavailable: " ++ formatErrorMessage raw) ∧
    (formatErrorMessage raw).length = 200 ∧
    ∃ pre, formatErrorMessage raw = pre ++ "..." ∧ pre.length = 197 ∧
      pre = raw.take 197 := by
  have hmem : path ∉ exemptPaths := by simpa using hpath
  have hne : raw ≠ "" := fun h => absurd (h ▸ hlen) (by decide)
  have hfmt : formatErrorMessage raw = raw.take 197 ++ "..." := by
    simp [formatErrorMessage, hsub, hlen]
  have hlenEq : raw.length = raw.data.length := by
    cases raw with
    | mk d => rfl
  have htake : (raw.take 197).length = 197 := by
    rw [String.take_eq, String.mk_length, List.length_take]
    omega
  have hlen200 : (formatErrorMessage raw).length = 200 := by
    rw [hfmt, String.length_append, htake]
    decide
  refine ⟨?_, hlen200, raw.take 197, hfmt, htake, rfl⟩
  simp [check_initialization, hpath, hmem, hinit, pyTruthyOpt, herr, hne]

set_option maxRecDepth 8192 in
/-- Claim C3, witness at a 201-character stored message and the gated path
`"/tts"`. -/
theorem C3_truncation_witness :
    check_initialization
        { MODELS_LOADED := false, initialized := false,
          initialization_error := some longErr } [] [] "/tts" =
      GateResult.reject 503
        ("Service unavailable: " ++ formatErrorMessage longErr) ∧
    (formatErrorMessage longErr).length = 200 ∧
    ∃ pre, formatErrorMessage longErr = pre ++ "..." ∧ pre.length = 197 ∧
      pre = longErr.take 197 :=
  C3_truncation
    { MODELS_LOADED := false, initialized := false,
      initialization_error := some longErr } [] [] "/tts" longErr
    (by decide) rfl rfl (by decide) (by decide)

set_option maxRecDepth 8192 in
/-- Claim C6: when the stored errorMessage contains `"weights_only"`, the
gate's 503 rejection of a non-exempt request carries the fixed canonical
compatibility-guidance text in place of the raw message, whatever the rest
of the message is; the raw message stays in state, and the probe endpoints
still report it verbatim — the substitution happens only at the gate. -/
theorem C6_weights_only_substitution (st : ServerState)
    (models voices : List String) (path raw : String)
    (hpath : exemptPaths.contains path = false)
    (hinit : st.initialized = false)
    (herr : st.initialization_error = some raw)
    (hsub : strContains raw "weights_only" = true) :
    check_initialization st models voices path =
      GateResult.reject 503 ("Service unavailable: " ++ weightsOnlyGuidance) ∧
    formatErrorMessage raw = weightsOnlyGuidance ∧
    st.initialization_error = some raw ∧
    health_check st voices = (200, HealthBody.error raw) ∧
    readiness_check st = (503, ReadyBody.error raw) := by
  have hmem : path ∉ exemptPaths := by simpa using hpath
  have hne : raw ≠ "" := by
    intro h
    subst h
    exact absurd hsub (by decide)
  have h200 : ¬ (weightsOnlyGuidance.length > 200) := by decide
  have hfmt : formatErrorMessage raw = weightsOnlyGuidance := by
    simp [formatErrorMessage, hsub, h200]
  refine ⟨?_, hfmt, herr, ?_, ?_⟩
  · simp [check_initialization, hpath, hmem, hinit, pyTruthyOpt, herr, hne, hfmt]
  · simp [health_check, pyTruthyOpt, herr, hne]
  · simp [readiness_check, pyTruthyOpt, herr, hne]

set_option maxRecDepth 8192 in
/-- Claim C6, witness at the stored message
`"failed: weights_only issue"` and the gated path `"/tts/synthesize"`. -/
theorem C6_weights_only_substitution_witness :
    check_initialization
        { MODELS_LOADED := false, initialized := false,
          initialization_error := some "failed: weights_only issue" }
        [] [] "/tts/synthesize" =
      GateResult.reject 503 ("Service unavailable: " ++ weightsOnlyGuidance) ∧
    formatErrorMessage "failed: weights_only issue" = weightsOnlyGuidance ∧
    (ServerState.mk false false (some "failed: weights_only issue")).initialization_error =
      some "failed: weights_only issue" ∧
    health_check
        { MODELS_LOADED := false, initialized := false,
          initialization_error := some "failed: weights_only issue" } [] =
      (200, HealthBody.error "failed: weights_only issue") ∧
    readiness_check
        { MODELS_LOADED := false, initialized := false,
          initialization_error := some "failed: weights_only issue" } =
      (503, ReadyBody.error "failed: weights_only issue") :=
  C6_weights_only_substitution
    { MODELS_LOADED := false, initialized := false,
      initialization_error := some "failed: weights_only issue" }
    [] [] "/tts/synthesize" "failed: weights_only issue"
    (by decide) rfl rfl (by decide)

theorem validationMessage_ne_empty (a b c : Bool) :
    (validationMessage a b c == "") = false := by
  cases a <;> cases b <;> cases c <;> decide

/-- Claim C9: along the trace of shared-state snapshots written by one worker
run from the initial state, the phase never regresses (its rank is
nondecreasing step by step), once terminal it never changes again, and a
terminal phase is written at most once. -/
theorem C9_phase_monotonic (outcome : LoaderOutcome) :
    List.Chain' (fun a b => phaseRank (phase a) ≤ phaseRank (phase b))
      (workerTrace outcome) ∧
    List.Chain' (fun a b => isTerminalPhase (phase a) = true → phase b = phase a)
      (workerTrace outcome) ∧
    terminalWrites (workerTrace outcome) ≤ 1 := by
  cases outcome with
  | failure msg =>
      cases hb : (msg == "") <;>
        simp [workerTrace, List.chain'_cons, phase, pyTruthyOpt, hb,
          phaseRank, isTerminalPhase, terminalWrites, initialState]
  | success m p v =>
      cases hcond : (m.isEmpty || p.isEmpty || v.isEmpty) <;>
        simp [workerTrace, hcond, List.chain'_cons, phase, pyTruthyOpt,
          validationMessage_ne_empty, phaseRank, isTerminalPhase,
          terminalWrites, initialState]

/-- Claim C10: whatever errorMessage is stored, `/health` and `/ready` report
it verbatim in their error field — no weights-only substitution and no
200-character truncation is applied there. -/
theorem C10_probe_verbatim (st : ServerState) (voices : List String)
    (m : String) (herr : st.initialization_error = some m) (hne : m ≠ "") :
    health_check st voices = (200, HealthBody.error m) ∧
    readiness_check st = (503, ReadyBody.error m) := by
  constructor
  · simp [health_check, pyTruthyOpt, herr, hne]
  · simp [readiness_check, pyTruthyOpt, herr, hne]

/-- Claim C10, witness at a 212-character stored message containing
`"weights_only"` — exactly the inputs the gate would reformat. -/
theorem C10_probe_verbatim_witness :
    health_check
        { MODELS_LOADED := false, initialized := false,
          initialization_error := some longWeightsErr } [] =
      (200, HealthBody.error longWeightsErr) ∧
    readiness_check
        { MODELS_LOADED := false, initialized := false,
          initialization_error := some longWeightsErr } =
      (503, ReadyBody.error longWeightsErr) :=
  C10_probe_verbatim
    { MODELS_LOADED := false, initialized := false,
      initialization_error := some longWeightsErr }
    [] longWeightsErr rfl (by decide)

end KokoroTTS
